import Mathlib

/-
  Verification development for the desktop monitoring agent
  (src/desktop_agent.py and, where a claim touches it, the Django backend
  under src/monitoring_backend/monitoring/).

  The agent's state-bearing pieces are shallowly embedded:
  * `AgentConfig` mirrors the `default_config` dictionary of
    `DesktopAgent.load_config` (lines 118-143): the same eleven keys, with
    machine strings/ints as `String`/`Nat` and JSON `null` as `Option`.
  * Persistence (`load_config` / `save_config`, lines 118-152) is modelled over
    an explicit file state: the stored JSON object becomes `StoredConfig`
    (every key optional, since `json.load` may return a partial object), and a
    write interrupted mid-stream leaves a truncated, unparseable prefix.
  * Every network call becomes a pure function of the current config and an
    explicit server outcome (the HTTP answer the `requests` call would have
    produced); the function returns whether a network request was attempted,
    the bool the Python function returns, and the updated config.
  * The pynput callbacks and `log_activity` (lines 341-370, 424-434) all run
    their shared-state accesses inside `self.activity_lock`, so an execution
    is modelled as a sequence of atomic events on the counter state.
  * The third-party `schedule` library plus `scheduler_thread`
    (lines 489-493) are modelled as a once-per-second polling loop: each
    pass materializes the runnable set up front (as `sorted` over the
    library's `should_run` generator does, before any job of the pass runs),
    executes it serially in ascending `next_run` order, and lets a job's
    exception escape the loop, which is exactly what `schedule.run_pending()`
    inside the bare `while` loop of `scheduler_thread` does.
-/

namespace DesktopAgent

/-- Agent configuration: the eleven keys of `default_config` in
`DesktopAgent.load_config` (desktop_agent.py lines 120-132).  `agent_token`
and `user_pk` start as JSON `null`, hence `Option`. -/
structure AgentConfig where
  server_url : String
  api_base_path : String
  agent_token : Option String
  user_pk : Option Nat
  screenshot_interval_seconds : Nat
  activity_log_interval_seconds : Nat
  enable_screenshot_capture : Bool
  enable_keystroke_logging : Bool
  enable_mouse_logging : Bool
  monitoring_active : Bool
  first_run_complete : Bool
deriving Repr, DecidableEq

/-- The `default_config` dictionary built at the top of
`DesktopAgent.load_config` (desktop_agent.py lines 120-132). -/
def default_config : AgentConfig :=
  { server_url := "http://127.0.0.1:8000"
    api_base_path := "/api/v1/monitoring/"
    agent_token := none
    user_pk := none
    screenshot_interval_seconds := 300
    activity_log_interval_seconds := 60
    enable_screenshot_capture := true
    enable_keystroke_logging := true
    enable_mouse_logging := true
    monitoring_active := false
    first_run_complete := false }

/-- Python truthiness of `self.config.get('agent_token')` as used by
`DesktopAgent.get_auth_headers` (lines 193-197): `None` and the empty string
are falsy, any other string is truthy. -/
def tokenTruthy (cfg : AgentConfig) : Bool :=
  match cfg.agent_token with
  | none => false
  | some t => if t = "" then false else true

/-- Model of `DesktopAgent.get_auth_headers` (desktop_agent.py lines 193-197): `None`
when no (truthy) token is stored, otherwise the bearer-style header value. -/
def get_auth_headers (cfg : AgentConfig) : Option String :=
  match cfg.agent_token with
  | none => none
  | some t => if t = "" then none else some ("AgentToken " ++ t)

/-- The JSON object read back by `json.load` in `DesktopAgent.load_config`
(line 137): each of the eleven config keys may be absent, and the two
nullable keys may additionally be present with value `null` (inner
`Option`). -/
structure StoredConfig where
  server_url : Option String
  api_base_path : Option String
  agent_token : Option (Option String)
  user_pk : Option (Option Nat)
  screenshot_interval_seconds : Option Nat
  activity_log_interval_seconds : Option Nat
  enable_screenshot_capture : Option Bool
  enable_keystroke_logging : Option Bool
  enable_mouse_logging : Option Bool
  monitoring_active : Option Bool
  first_run_complete : Option Bool
deriving Repr, DecidableEq

/-- The JSON object `json.dump(self.config, ...)` writes in
`DesktopAgent.save_config` (line 149): every key of the in-memory config is
present in the file. -/
def serialize (cfg : AgentConfig) : StoredConfig :=
  { server_url := some cfg.server_url
    api_base_path := some cfg.api_base_path
    agent_token := some cfg.agent_token
    user_pk := some cfg.user_pk
    screenshot_interval_seconds := some cfg.screenshot_interval_seconds
    activity_log_interval_seconds := some cfg.activity_log_interval_seconds
    enable_screenshot_capture := some cfg.enable_screenshot_capture
    enable_keystroke_logging := some cfg.enable_keystroke_logging
    enable_mouse_logging := some cfg.enable_mouse_logging
    monitoring_active := some cfg.monitoring_active
    first_run_complete := some cfg.first_run_complete }

/-- An all-keys-absent stored file: `json.load` returned `{}`. -/
def emptyStored : StoredConfig :=
  { server_url := none, api_base_path := none, agent_token := none
    user_pk := none, screenshot_interval_seconds := none
    activity_log_interval_seconds := none, enable_screenshot_capture := none
    enable_keystroke_logging := none, enable_mouse_logging := none
    monitoring_active := none, first_run_complete := none }

/-- State of the on-disk config file.  `stored sc` is a complete,
parseable JSON object; `truncated sc k` is the file left behind when a write
of `sc` was interrupted after `k` of its pieces - a strict prefix of the
serialized object, which `json.load` cannot parse. -/
inductive FileState where
  | absent : FileState
  | stored (sc : StoredConfig) : FileState
  | truncated (sc : StoredConfig) (k : Nat) : FileState
deriving Repr, DecidableEq

/-- Is the file a leftover of an interrupted (partial) write? -/
def FileState.isTruncated : FileState → Bool
  | FileState.truncated _ _ => true
  | _ => false

/-- Model of `default_config.update(loaded_config)` (desktop_agent.py line 138):
every key present in the file overrides the default, every absent key keeps
its default. -/
def load_stored (sc : StoredConfig) : AgentConfig :=
  { server_url := sc.server_url.getD default_config.server_url
    api_base_path := sc.api_base_path.getD default_config.api_base_path
    agent_token := sc.agent_token.getD default_config.agent_token
    user_pk := sc.user_pk.getD default_config.user_pk
    screenshot_interval_seconds :=
      sc.screenshot_interval_seconds.getD default_config.screenshot_interval_seconds
    activity_log_interval_seconds :=
      sc.activity_log_interval_seconds.getD default_config.activity_log_interval_seconds
    enable_screenshot_capture :=
      sc.enable_screenshot_capture.getD default_config.enable_screenshot_capture
    enable_keystroke_logging :=
      sc.enable_keystroke_logging.getD default_config.enable_keystroke_logging
    enable_mouse_logging :=
      sc.enable_mouse_logging.getD default_config.enable_mouse_logging
    monitoring_active := sc.monitoring_active.getD default_config.monitoring_active
    first_run_complete := sc.first_run_complete.getD default_config.first_run_complete }

/-- Model of `DesktopAgent.load_config` (desktop_agent.py lines 118-143): a missing
file keeps the defaults; a parseable file is merged over the defaults; an
unparseable (e.g. truncated) file raises inside the `try`, is logged, and the
defaults are kept.  The function is total: loading never fails startup. -/
def load_config : FileState → AgentConfig
  | FileState.absent => default_config
  | FileState.stored sc => load_stored sc
  | FileState.truncated _ _ => default_config

/-- Model of `DesktopAgent.save_config` (desktop_agent.py lines 145-152):
`open(self.config_file, 'w')` truncates the existing file in place and the
new JSON is then written into it.  `fault = none` is an uninterrupted write;
`fault = some k` is an I/O error / interruption after `k` pieces, caught by
the `except` clause which logs it (the returned `Bool`) and returns normally
- the error is never propagated.  Note the old file content is destroyed as
soon as the write begins. -/
def save_config (_old : FileState) (cfg : AgentConfig) (fault : Option Nat) :
    FileState × Bool :=
  match fault with
  | none => (FileState.stored (serialize cfg), false)
  | some k => (FileState.truncated (serialize cfg) k, true)

/-- Modelled from the spec: `save(config)` with "write-then-replace
semantics" (spec section 4.1) - the new content is prepared aside and
atomically replaces the old file, so an interrupted save leaves the previous
file intact.  This definition exists only to be compared against the actual
`save_config` above; the source has no such code. -/
def save_atomic_spec (old : FileState) (cfg : AgentConfig) (fault : Option Nat) :
    FileState × Bool :=
  match fault with
  | none => (FileState.stored (serialize cfg), false)
  | some _ => (old, true)

/-- Answer of the server to a single plain upload-style request: an HTTP
status code, or a network failure / timeout (which raises inside the Python
`try` and is caught). -/
inductive UploadOutcome where
  | status (code : Nat) : UploadOutcome
  | netError : UploadOutcome
deriving Repr, DecidableEq

/-- Outcome of one endpoint call as observed on the agent:
whether a network request was actually attempted, and the boolean the Python
method returns. -/
structure CallResult where
  requested : Bool
  ok : Bool
deriving Repr, DecidableEq

/-- Truth of `response.status_code == 200` on an upload-style call. -/
def http_ok : UploadOutcome → Bool
  | UploadOutcome.status 200 => true
  | _ => false

/-- Model of `DesktopAgent.upload_activity` (desktop_agent.py lines 372-393): if
`get_auth_headers` yields nothing the call returns `False` without touching
the network; otherwise one POST is made and the result is `status == 200`.
Nothing in the agent state is modified, whatever the response code. -/
def upload_activity (cfg : AgentConfig) (r : UploadOutcome) : CallResult :=
  match get_auth_headers cfg with
  | none => { requested := false, ok := false }
  | some _ => { requested := true, ok := http_ok r }

/-- Model of `DesktopAgent.upload_screenshot` (desktop_agent.py lines 311-339): the
same header check, one multipart POST, success iff status 200; no agent
state is modified. -/
def upload_screenshot (cfg : AgentConfig) (r : UploadOutcome) : CallResult :=
  match get_auth_headers cfg with
  | none => { requested := false, ok := false }
  | some _ => { requested := true, ok := http_ok r }

/-- Model of `DesktopAgent.send_heartbeat` (desktop_agent.py lines 395-422): the same
header check, one POST, success iff status 200; no agent state is
modified. -/
def send_heartbeat (cfg : AgentConfig) (r : UploadOutcome) : CallResult :=
  match get_auth_headers cfg with
  | none => { requested := false, ok := false }
  | some _ => { requested := true, ok := http_ok r }

/-- JSON body of a 200 answer of the backend `get_settings` view.  Each key
may be absent; `user_pk` may also be present with value `null`.  The backend
(monitoring/serializers.py `SettingsSerializer`) additionally serializes the
profile's `monitoring_enabled` and `admin_access_active` flags, which the
agent never reads; `monitoring_enabled` is kept here to make that explicit. -/
structure SettingsResp where
  user_pk : Option (Option Nat)
  screenshot_interval_seconds : Option Nat
  activity_log_interval_seconds : Option Nat
  enable_screenshot_capture : Option Bool
  enable_keystroke_logging : Option Bool
  enable_mouse_logging : Option Bool
  monitoring_enabled : Option Bool
deriving Repr, DecidableEq

/-- Answer of the server to the settings fetch. -/
inductive FetchOutcome where
  | ok (s : SettingsResp) : FetchOutcome
  | httpError (code : Nat) : FetchOutcome
  | netError : FetchOutcome
deriving Repr, DecidableEq

/-- Outcome of `fetch_settings_from_server`: whether a request was made, the
returned boolean, the (possibly updated) config, and whether `save_config`
was invoked. -/
structure FetchResult where
  requested : Bool
  ok : Bool
  cfg : AgentConfig
  saved : Bool
deriving Repr, DecidableEq

/-- Model of `DesktopAgent.fetch_settings_from_server` (desktop_agent.py lines
199-236).  No (truthy) token short-circuits locally with `False`.  On a 200
answer `self.config.update({...})` applies the server values with the
literal fallbacks of lines 214-219 (note they are constants, not the current
config values, except `user_pk` which falls back to the current value), and
`monitoring_active` is recomputed as `any` of the three capability toggles
with `False` fallbacks (lines 220-224); then the config is saved.  Any
non-200 answer or network error just logs and returns `False`. -/
def fetch_settings_from_server (cfg : AgentConfig) (r : FetchOutcome) : FetchResult :=
  match get_auth_headers cfg with
  | none => { requested := false, ok := false, cfg := cfg, saved := false }
  | some _ =>
    match r with
    | FetchOutcome.ok s =>
      let cfg2 : AgentConfig :=
        { cfg with
          user_pk := (match s.user_pk with
                      | none => cfg.user_pk
                      | some v => v)
          screenshot_interval_seconds := s.screenshot_interval_seconds.getD 300
          activity_log_interval_seconds := s.activity_log_interval_seconds.getD 60
          enable_screenshot_capture := s.enable_screenshot_capture.getD true
          enable_keystroke_logging := s.enable_keystroke_logging.getD true
          enable_mouse_logging := s.enable_mouse_logging.getD true
          monitoring_active :=
            (s.enable_screenshot_capture.getD false ||
             (s.enable_keystroke_logging.getD false ||
              s.enable_mouse_logging.getD false)) }
      { requested := true, ok := true, cfg := cfg2, saved := true }
    | FetchOutcome.httpError _ =>
      { requested := true, ok := false, cfg := cfg, saved := false }
    | FetchOutcome.netError =>
      { requested := true, ok := false, cfg := cfg, saved := false }

/-- Keys of the JSON body the backend `get_settings` view answers with: the
`SettingsSerializer.Meta.fields` list (monitoring/serializers.py lines
21-29) plus the `user_pk` key added in monitoring/views.py line 127. -/
def settings_response_keys : List String :=
  ["screenshot_interval_seconds",
   "activity_log_interval_seconds",
   "enable_screenshot_capture",
   "enable_keystroke_logging",
   "enable_mouse_logging",
   "monitoring_enabled",
   "admin_access_active",
   "user_pk"]

/-- JSON body of a 200 answer to the pair request, as read by
`pair_with_server`: `data['agent_token']` and `data['user_pk']` may each be
absent (a `KeyError` in the Python). -/
structure PairResp where
  agent_token : Option String
  user_pk : Option Nat
deriving Repr, DecidableEq

/-- Answer of the server to the pair request.  `failure` covers every
non-200 status and every network error: in all those paths the Python logs
and returns `False` with the config untouched. -/
inductive PairOutcome where
  | ok (resp : PairResp) : PairOutcome
  | failure : PairOutcome
deriving Repr, DecidableEq

/-- Outcome of `pair_with_server`: the returned boolean, the (possibly
partially) updated config, and whether `save_config` was invoked. -/
structure PairResult where
  ok : Bool
  cfg : AgentConfig
  saved : Bool
deriving Repr, DecidableEq

/-- Model of `DesktopAgent.pair_with_server` (desktop_agent.py lines 164-191).  On a
200 answer the assignments run in source order: `data['agent_token']` is
written into the config first (line 178); if the response then lacks
`user_pk`, the `KeyError` of line 179 aborts to the `except` handler with
the token already written and `first_run_complete` still false -
a partial mutation.  On full success both fields, the completion flag and a
`save_config` happen.  Any failure path returns `False`. -/
def pair_with_server (cfg : AgentConfig) (r : PairOutcome) : PairResult :=
  match r with
  | PairOutcome.failure => { ok := false, cfg := cfg, saved := false }
  | PairOutcome.ok resp =>
    match resp.agent_token with
    | none => { ok := false, cfg := cfg, saved := false }
    | some t =>
      let cfg1 : AgentConfig := { cfg with agent_token := some t }
      match resp.user_pk with
      | none => { ok := false, cfg := cfg1, saved := false }
      | some pk =>
        { ok := true
          cfg := { cfg1 with user_pk := some pk, first_run_complete := true }
          saved := true }

/-- The counter state guarded by `self.activity_lock`: `keystroke_count`,
`mouse_click_count` and `last_activity_log` (desktop_agent.py lines 60-63),
with the timestamp as a `Nat`. -/
structure AggState where
  keystroke_count : Nat
  mouse_click_count : Nat
  last_activity_log : Nat
deriving Repr, DecidableEq

/-- The `activity_data` payload built in `DesktopAgent.log_activity` (lines
351-359), restricted to its state-dependent fields; the window-title,
application-name and `url` fields come from the environment and carry no
counter state. -/
structure ActivitySample where
  timestamp_start : Nat
  timestamp_end : Nat
  keystrokes : Nat
  mouse_clicks : Nat
deriving Repr, DecidableEq

/-- Model of `DesktopAgent.on_key_press` (desktop_agent.py lines 424-428): the
counter is incremented - under the lock - only when keystroke logging is
enabled in the config at the time of the event. -/
def on_key_press (cfg : AgentConfig) (s : AggState) : AggState :=
  if cfg.enable_keystroke_logging then
    { s with keystroke_count := s.keystroke_count + 1 }
  else s

/-- Model of `DesktopAgent.on_mouse_click` (desktop_agent.py lines 430-434): counts
only press events, and only when mouse logging is enabled at event time. -/
def on_mouse_click (cfg : AgentConfig) (_x _y _button : Nat) (pressed : Bool)
    (s : AggState) : AggState :=
  if pressed && cfg.enable_mouse_logging then
    { s with mouse_click_count := s.mouse_click_count + 1 }
  else s

/-- Model of `DesktopAgent.log_activity` (desktop_agent.py lines 341-370): if both
capability toggles are off the method returns without flushing.  Otherwise,
inside one `activity_lock` critical section, it builds the sample - each
count suppressed to 0 when its toggle is off at flush time - and then zeroes
both counters and moves `last_activity_log` to `now`. -/
def log_activity (cfg : AgentConfig) (s : AggState) (now : Nat) :
    AggState × Option ActivitySample :=
  if cfg.enable_keystroke_logging || cfg.enable_mouse_logging then
    ({ keystroke_count := 0, mouse_click_count := 0, last_activity_log := now },
     some { timestamp_start := s.last_activity_log
            timestamp_end := now
            keystrokes := if cfg.enable_keystroke_logging then s.keystroke_count else 0
            mouse_clicks := if cfg.enable_mouse_logging then s.mouse_click_count else 0 })
  else (s, none)

/-- One increment callback fired by pynput.  Because every access to the
counters is wrapped in `self.activity_lock`, any concurrent execution is
equivalent to some serialization of these atomic events with the flush's
critical section. -/
inductive IncEvent where
  | keyPress : IncEvent
  | mouseClick : IncEvent
deriving Repr, DecidableEq

/-- Apply one increment callback to the counter state. -/
def applyInc (cfg : AgentConfig) (s : AggState) : IncEvent → AggState
  | IncEvent.keyPress => on_key_press cfg s
  | IncEvent.mouseClick => on_mouse_click cfg 0 0 0 true s

/-- Run a serialized burst of increment callbacks. -/
def runIncs (cfg : AgentConfig) (s : AggState) (es : List IncEvent) : AggState :=
  es.foldl (applyInc cfg) s

/-- Number of key-press events in a burst. -/
def countKey : List IncEvent → Nat
  | [] => 0
  | IncEvent.keyPress :: es => countKey es + 1
  | IncEvent.mouseClick :: es => countKey es

/-- Number of mouse-click events in a burst. -/
def countMouse : List IncEvent → Nat
  | [] => 0
  | IncEvent.keyPress :: es => countMouse es
  | IncEvent.mouseClick :: es => countMouse es + 1

/-- One job registered with the `schedule` library
(`schedule.every(n).seconds.do(f)` in `DesktopAgent.setup_schedules`, lines
468-487).  `next_run` starts at `interval` past registration;
`fails_on_run` marks the run index at which the job function raises (a
forced failure); `duration` is how many simulated seconds the job function
takes; `run_times` records the start time of each completed run. -/
structure Job where
  interval : Nat
  next_run : Nat
  runs : Nat
  fails_on_run : Option Nat
  duration : Nat
  run_times : List Nat
deriving Repr, DecidableEq

/-- State of the scheduler thread. -/
structure SchedState where
  jobs : List Job
  now : Nat
  crashed : Bool
deriving Repr, DecidableEq

/-- Stable insertion of an indexed job into a list sorted by ascending
`next_run`: on a tie the inserted (originally earlier) job comes first,
matching Python's stable `sorted` over jobs whose ordering compares
`next_run`. -/
def insertByNextRun (p : Nat × Job) : List (Nat × Job) → List (Nat × Job)
  | [] => [p]
  | q :: rest =>
    if p.2.next_run ≤ q.2.next_run then p :: q :: rest
    else q :: insertByNextRun p rest

/-- Stable sort of indexed jobs by ascending `next_run`, as
`sorted(runnable_jobs)` does in `schedule.run_pending`. -/
def sortByNextRun : List (Nat × Job) → List (Nat × Job)
  | [] => []
  | p :: rest => insertByNextRun p (sortByNextRun rest)

/-- Run the materialized runnable set serially on the single scheduler
thread, in its sorted order.  Running a job consumes its `duration` (the
clock advances), after which `schedule` sets the job's `next_run` to
completion time plus interval.  A job function that raises propagates: the
jobs already run keep their updates, the failing job and the ones after it
are left untouched, and the crash flag is reported. -/
def runSorted : Nat → List (Nat × Job) → List (Nat × Job) × Nat × Bool
  | now, [] => ([], now, false)
  | now, p :: rest =>
    if p.2.fails_on_run = some p.2.runs then
      (p :: rest, now, true)
    else
      let fin := now + p.2.duration
      let j2 : Job :=
        { p.2 with runs := p.2.runs + 1
                   run_times := p.2.run_times ++ [now]
                   next_run := fin + p.2.interval }
      let r := runSorted fin rest
      ((p.1, j2) :: r.1, r.2.1, r.2.2)

/-- The updated job for a given original position, if that job was in the
runnable set of the pass. -/
def lookupIdx (upds : List (Nat × Job)) (i : Nat) : Option Job :=
  (upds.find? (fun p => p.1 == i)).map (fun p => p.2)

/-- Model of `schedule.run_pending()`: the runnable set is materialized
before any job runs - `sorted(...)` exhausts the `should_run` generator
first, so due-ness is decided against the clock at the start of the pass,
not against the clock advanced by earlier jobs' durations.  The due jobs
are then executed serially in ascending `next_run` order (stable on ties),
while the jobs list itself keeps its registration order. -/
def run_pending (now : Nat) (jobs : List Job) : List Job × Nat × Bool :=
  let indexed := (List.range jobs.length).zip jobs
  let runnable := indexed.filter (fun p => decide (p.2.next_run ≤ now))
  let r := runSorted now (sortByNextRun runnable)
  (indexed.map (fun p => (lookupIdx r.1 p.1).getD p.2), r.2.1, r.2.2)

/-- Model of `DesktopAgent.scheduler_thread` (desktop_agent.py lines 489-493): the
single thread loops `schedule.run_pending(); time.sleep(1)`.  There is no
exception handler in the loop, so a raising job terminates the whole
thread and with it every job's future ticks.  Simulation stops once the
clock passes `horizon`; `fuel` bounds the recursion. -/
def scheduler_thread (horizon : Nat) : Nat → SchedState → SchedState
  | 0, s => s
  | fuel + 1, s =>
    if s.crashed then s
    else if horizon < s.now then s
    else
      let r := run_pending s.now s.jobs
      scheduler_thread horizon fuel { jobs := r.1, now := r.2.1 + 1, crashed := r.2.2 }

/-- Simulate the scheduler thread from time 0 for `horizon` seconds. -/
def simulate (jobs : List Job) (horizon : Nat) : SchedState :=
  scheduler_thread horizon (horizon + 1) { jobs := jobs, now := 0, crashed := false }

/-- A freshly registered job with the given interval: `schedule` puts its
first run one interval after registration. -/
def mkJob (i : Nat) : Job :=
  { interval := i, next_run := i, runs := 0, fails_on_run := none
    duration := 0, run_times := [] }

/-- The condition of `DesktopAgent.initial_setup` line 541:
`not self.config.get('first_run_complete') or not self.config.get('agent_token')`. -/
def needs_setup (cfg : AgentConfig) : Bool :=
  !cfg.first_run_complete || !tokenTruthy cfg

/-- Outcome of `initial_setup`: the returned boolean, the config afterwards,
and whether a pair request was attempted at all. -/
structure SetupResult where
  ok : Bool
  cfg : AgentConfig
  attempted : Bool
deriving Repr, DecidableEq

/-- Model of `DesktopAgent.initial_setup` (desktop_agent.py lines 539-573).  With a
completed, token-carrying config it is a no-op returning `True` (line 573).
Otherwise the pairing-code prompt runs: no code (or an empty one, `if not
pairing_code`) is a failure without any network attempt; with a code the
outcome is that of `pair_with_server`. -/
def initial_setup (cfg : AgentConfig) (code : Option String) (pr : PairOutcome) :
    SetupResult :=
  if needs_setup cfg then
    match code with
    | none => { ok := false, cfg := cfg, attempted := false }
    | some c =>
      if c = "" then { ok := false, cfg := cfg, attempted := false }
      else
        let p := pair_with_server cfg pr
        { ok := p.ok, cfg := p.cfg, attempted := true }
  else { ok := true, cfg := cfg, attempted := false }

/-- A job category registered by `DesktopAgent.setup_schedules`. -/
inductive JobKind where
  | screenshot : JobKind
  | activity : JobKind
  | heartbeat : JobKind
  | settingsRefresh : JobKind
deriving Repr, DecidableEq

/-- An input listener started by `DesktopAgent.start_input_listeners`. -/
inductive ListenerKind where
  | keyboardInput : ListenerKind
  | mouseInput : ListenerKind
deriving Repr, DecidableEq

/-- Model of `DesktopAgent.setup_schedules` (desktop_agent.py lines 468-487): the job
categories registered for the given config - screenshot capture if enabled,
activity logging if either input toggle is enabled, and heartbeat and
settings refresh unconditionally. -/
def setup_schedules (cfg : AgentConfig) : List JobKind :=
  (if cfg.enable_screenshot_capture then [JobKind.screenshot] else []) ++
  (if cfg.enable_keystroke_logging || cfg.enable_mouse_logging then
    [JobKind.activity] else []) ++
  [JobKind.heartbeat, JobKind.settingsRefresh]

/-- Model of `DesktopAgent.start_input_listeners` (desktop_agent.py lines 436-454,
with pynput available): one listener per enabled input toggle. -/
def start_input_listeners (cfg : AgentConfig) : List ListenerKind :=
  (if cfg.enable_keystroke_logging then [ListenerKind.keyboardInput] else []) ++
  (if cfg.enable_mouse_logging then [ListenerKind.mouseInput] else [])

/-- Observable outcome of `DesktopAgent.run`: the `sys.exit` code if the
process exited during startup (`none` = the method returned or reached the
main loop normally), whether the failed-settings warning of line 607 was
logged, which listeners were started, and which jobs were scheduled. -/
structure RunOutcome where
  exit_code : Option Nat
  warned_settings : Bool
  listeners : List ListenerKind
  scheduled_jobs : List JobKind
  cfg : AgentConfig
deriving Repr, DecidableEq

/-- Model of `DesktopAgent.run` (desktop_agent.py lines 597-641) up to the main
loop: failed `initial_setup` exits with code 1; a failed settings fetch only
logs a warning; a config with `monitoring_active` false returns before any
listener or job is started; otherwise listeners and jobs are started from
the post-fetch config. -/
def run (cfg0 : AgentConfig) (code : Option String) (pr : PairOutcome)
    (fr : FetchOutcome) : RunOutcome :=
  let st := initial_setup cfg0 code pr
  if st.ok then
    let f := fetch_settings_from_server st.cfg fr
    if f.cfg.monitoring_active then
      { exit_code := none, warned_settings := !f.ok
        listeners := start_input_listeners f.cfg
        scheduled_jobs := setup_schedules f.cfg, cfg := f.cfg }
    else
      { exit_code := none, warned_settings := !f.ok
        listeners := [], scheduled_jobs := [], cfg := f.cfg }
  else
    { exit_code := some 1, warned_settings := false
      listeners := [], scheduled_jobs := [], cfg := st.cfg }

/-- The agent configs reachable through the operations the agent itself
performs, starting from the defaults: restarting (re-loading a file written
by an uninterrupted or interrupted save, or no file), pairing, and settings
refresh.  Server answers are constrained to the interface of spec section 6:
a 200 pair answer carries both `agent_token` and `user_pk`, and a 200
settings answer never carries an explicit `null` `user_pk`. -/
inductive Reachable : AgentConfig → Prop where
  | init : Reachable default_config
  | loadMissing : Reachable (load_config FileState.absent)
  | loadSaved {c : AgentConfig} : Reachable c →
      Reachable (load_config (FileState.stored (serialize c)))
  | loadTruncated {c : AgentConfig} (k : Nat) : Reachable c →
      Reachable (load_config (FileState.truncated (serialize c) k))
  | pairOk {c : AgentConfig} (t : String) (pk : Nat) : Reachable c →
      Reachable (pair_with_server c (PairOutcome.ok { agent_token := some t, user_pk := some pk })).cfg
  | pairFail {c : AgentConfig} : Reachable c →
      Reachable (pair_with_server c PairOutcome.failure).cfg
  | fetchOk {c : AgentConfig} (s : SettingsResp) : s.user_pk ≠ some none →
      Reachable c →
      Reachable (fetch_settings_from_server c (FetchOutcome.ok s)).cfg
  | fetchHttpError {c : AgentConfig} (code : Nat) : Reachable c →
      Reachable (fetch_settings_from_server c (FetchOutcome.httpError code)).cfg
  | fetchNetError {c : AgentConfig} : Reachable c →
      Reachable (fetch_settings_from_server c FetchOutcome.netError).cfg

/-- A paired config as produced by a successful pairing exchange on top of
the defaults. -/
def pairedCfg : AgentConfig :=
  { default_config with
    agent_token := some "tok", user_pk := some 1, first_run_complete := true }

/-- A config saved without interruption and loaded again comes back
unchanged: the file carries every key, so no default is consulted. -/
lemma load_serialize (c : AgentConfig) :
    load_config (FileState.stored (serialize c)) = c := rfl

/-- Lemma: `get_auth_headers` yields a header exactly when the stored token is
truthy. -/
lemma get_auth_headers_isSome (cfg : AgentConfig) :
    (get_auth_headers cfg).isSome = tokenTruthy cfg := by
  rcases hT : cfg.agent_token with _ | t
  · simp [get_auth_headers, tokenTruthy, hT]
  · by_cases ht : t = "" <;> simp [get_auth_headers, tokenTruthy, hT, ht]

/-- A settings fetch answered with a non-200 status leaves the config
untouched. -/
lemma fetch_err_cfg (c : AgentConfig) (code : Nat) :
    (fetch_settings_from_server c (FetchOutcome.httpError code)).cfg = c := by
  cases hH : get_auth_headers c <;> simp [fetch_settings_from_server, hH]

/-- A settings fetch hitting a network error leaves the config untouched. -/
lemma fetch_net_cfg (c : AgentConfig) :
    (fetch_settings_from_server c FetchOutcome.netError).cfg = c := by
  cases hH : get_auth_headers c <;> simp [fetch_settings_from_server, hH]

/-- Claim C4 counterexample: `save_config` does not have write-then-replace
semantics.  Interrupting the save of a new config over a previously stored
default config leaves a truncated partial file - neither the old nor the new
content - where the spec's atomic save (`save_atomic_spec`) would have kept
the old file intact. -/
theorem C4_counterexample :
    (save_config (FileState.stored (serialize default_config)) pairedCfg (some 3)).1.isTruncated
      = true ∧
    (save_config (FileState.stored (serialize default_config)) pairedCfg (some 3)).1 ≠
      FileState.stored (serialize pairedCfg) ∧
    (save_config (FileState.stored (serialize default_config)) pairedCfg (some 3)).1 ≠
      FileState.stored (serialize default_config) ∧
    (save_atomic_spec (FileState.stored (serialize default_config)) pairedCfg (some 3)).1 =
      FileState.stored (serialize default_config) := by
  refine ⟨rfl, ?_, ?_, rfl⟩ <;> decide

/-- Claim C4 (amended): `save_config` writes the config file in place
(truncate-then-write, not write-then-replace), so an interrupted save leaves
a truncated partial file; the I/O error is logged (the returned flag) and
never propagated (the function returns normally on every input), and a later
load of the partial file falls back to the defaults. -/
theorem C4_amended : ∀ (old : FileState) (cfg : AgentConfig) (k : Nat),
    save_config old cfg none = (FileState.stored (serialize cfg), false) ∧
    save_config old cfg (some k) = (FileState.truncated (serialize cfg) k, true) ∧
    load_config (FileState.truncated (serialize cfg) k) = default_config := by
  intro old cfg k
  exact ⟨rfl, rfl, rfl⟩

/-- Claim C5: an uninterrupted `save_config` followed by `load_config`
returns the config unchanged in every field; loading with the file missing
or truncated/unparseable succeeds and yields the defaults; and any key
absent from a stored file falls back to its documented default value. -/
theorem C5_round_trip : ∀ (cfg : AgentConfig) (old : FileState) (sc : StoredConfig) (k : Nat),
    load_config (save_config old cfg none).1 = cfg ∧
    load_config FileState.absent = default_config ∧
    load_config (FileState.truncated sc k) = default_config ∧
    (sc.server_url = none → (load_stored sc).server_url = "http://127.0.0.1:8000") ∧
    (sc.api_base_path = none → (load_stored sc).api_base_path = "/api/v1/monitoring/") ∧
    (sc.agent_token = none → (load_stored sc).agent_token = none) ∧
    (sc.user_pk = none → (load_stored sc).user_pk = none) ∧
    (sc.screenshot_interval_seconds = none →
      (load_stored sc).screenshot_interval_seconds = 300) ∧
    (sc.activity_log_interval_seconds = none →
      (load_stored sc).activity_log_interval_seconds = 60) ∧
    (sc.enable_screenshot_capture = none →
      (load_stored sc).enable_screenshot_capture = true) ∧
    (sc.enable_keystroke_logging = none →
      (load_stored sc).enable_keystroke_logging = true) ∧
    (sc.enable_mouse_logging = none → (load_stored sc).enable_mouse_logging = true) ∧
    (sc.monitoring_active = none → (load_stored sc).monitoring_active = false) ∧
    (sc.first_run_complete = none → (load_stored sc).first_run_complete = false) := by
  intro cfg old sc k
  refine ⟨rfl, rfl, rfl, ?_, ?_, ?_, ?_, ?_, ?_, ?_, ?_, ?_, ?_, ?_⟩ <;>
    (intro h; simp [load_stored, default_config, h])

/-- Claim C5 witness: the round trip and the defaults fallback at a concrete
paired config and the empty stored file. -/
theorem C5_witness :
    load_config (save_config FileState.absent pairedCfg none).1 = pairedCfg ∧
    (load_stored emptyStored).screenshot_interval_seconds = 300 ∧
    (load_stored emptyStored).enable_keystroke_logging = true := by
  obtain ⟨h1, -, -, -, -, -, -, h8, -, -, h11, -, -, -⟩ :=
    C5_round_trip pairedCfg FileState.absent emptyStored 0
  exact ⟨h1, h8 rfl, h11 rfl⟩

/-- Claim C6 counterexample: with jobs at intervals {5s, 7s} and no failure,
35 simulated seconds give {7, 5} runs; but forcing the 5s job to raise on
its first tick kills the single scheduler thread, so the 7s job never runs
at all - its tick count drops from 5 to 0 instead of staying unchanged. -/
theorem C6_counterexample :
    ((simulate [mkJob 5, mkJob 7] 35).jobs.map Job.runs = [7, 5]) ∧
    ((simulate [{ mkJob 5 with fails_on_run := some 0 }, mkJob 7] 35).jobs.map Job.runs
      = [0, 0]) ∧
    ((simulate [{ mkJob 5 with fails_on_run := some 0 }, mkJob 7] 35).crashed = true) := by
  refine ⟨?_, ?_, ?_⟩ <;> decide

/-- Claim C6 (amended): all jobs share one scheduler thread polling once a
second.  With instantaneous, non-failing jobs at intervals {5s, 7s}, after
35 simulated seconds they have run exactly {7, 5} times, at the expected
times.  But the jobs are not independent: a 4-second execution of the 5s job
delays the 7s job's ticks (its first run moves from t=7 to the t=10 poll,
its runs are 10, 19, 28 - only 3 fit in the horizon), and an exception in
one job's tick terminates the scheduler thread, stopping every job. -/
theorem C6_amended :
    ((simulate [mkJob 5, mkJob 7] 35).jobs.map Job.runs = [7, 5]) ∧
    ((simulate [mkJob 5, mkJob 7] 35).crashed = false) ∧
    ((simulate [mkJob 5, mkJob 7] 35).jobs.map Job.run_times =
      [[5, 10, 15, 20, 25, 30, 35], [7, 14, 21, 28, 35]]) ∧
    ((simulate [{ mkJob 5 with duration := 4 }, mkJob 7] 35).jobs.map Job.run_times =
      [[5, 14, 23, 32], [10, 19, 28]]) ∧
    ((simulate [{ mkJob 5 with duration := 4 }, mkJob 7] 35).jobs.map Job.runs = [4, 3]) ∧
    ((simulate [{ mkJob 5 with fails_on_run := some 0 }, mkJob 7] 35).jobs.map Job.runs
      = [0, 0]) ∧
    ((simulate [{ mkJob 5 with fails_on_run := some 0 }, mkJob 7] 35).crashed = true) := by
  refine ⟨?_, ?_, ?_, ?_, ?_, ?_, ?_⟩ <;> decide

/-- Claim C1 counterexample: with a paired config, an authenticated call
answered 401 did perform a network request, nothing in the agent state
changed (a 403 settings fetch returns the config unmodified, uploads touch
no state at all), and the subsequent calls to authenticated endpoints
perform network requests again instead of being short-circuited. -/
theorem C1_counterexample :
    (upload_activity pairedCfg (UploadOutcome.status 401)).requested = true ∧
    (upload_activity pairedCfg (UploadOutcome.status 401)).ok = false ∧
    (fetch_settings_from_server pairedCfg (FetchOutcome.httpError 403)).cfg = pairedCfg ∧
    (upload_activity pairedCfg (UploadOutcome.status 200)).requested = true ∧
    (send_heartbeat pairedCfg UploadOutcome.netError).requested = true ∧
    (upload_screenshot pairedCfg (UploadOutcome.status 403)).requested = true := by
  refine ⟨?_, ?_, ?_, ?_, ?_, ?_⟩ <;> decide

/-- Claim C1 (amended): an authenticated endpoint call is short-circuited
locally (no network request) exactly when the stored agent token is absent
or empty; a 401/403 answer modifies no agent state, so every subsequent call
before re-pairing still attempts a network request. -/
theorem C1_amended : ∀ (cfg : AgentConfig) (r : UploadOutcome) (f : FetchOutcome) (c : Nat),
    (upload_activity cfg r).requested = tokenTruthy cfg ∧
    (upload_screenshot cfg r).requested = tokenTruthy cfg ∧
    (send_heartbeat cfg r).requested = tokenTruthy cfg ∧
    (fetch_settings_from_server cfg f).requested = tokenTruthy cfg ∧
    (fetch_settings_from_server cfg (FetchOutcome.httpError c)).cfg = cfg ∧
    (fetch_settings_from_server cfg FetchOutcome.netError).cfg = cfg := by
  intro cfg r f c
  rcases hT : cfg.agent_token with _ | t
  · simp [upload_activity, upload_screenshot, send_heartbeat,
      fetch_settings_from_server, get_auth_headers, tokenTruthy, hT]
  · by_cases ht : t = "" <;>
      rcases f with s | fc | _ <;>
      simp [upload_activity, upload_screenshot, send_heartbeat,
        fetch_settings_from_server, get_auth_headers, tokenTruthy, hT, ht]

/-- A config with keystroke logging disabled (mouse logging still on). -/
def cfgNoKey : AgentConfig := { default_config with enable_keystroke_logging := false }

/-- Claim C3 counterexample: while keystroke logging is disabled, a key
press does NOT keep accumulating internally - `on_key_press` checks the
toggle at capture time and leaves the counter untouched, contradicting the
claim that suppression happens only on send. -/
theorem C3_counterexample :
    on_key_press cfgNoKey
        { keystroke_count := 0, mouse_click_count := 0, last_activity_log := 0 } =
      { keystroke_count := 0, mouse_click_count := 0, last_activity_log := 0 } ∧
    (on_key_press cfgNoKey
        { keystroke_count := 0, mouse_click_count := 0, last_activity_log := 0 }).keystroke_count
      ≠ 1 := by
  refine ⟨rfl, ?_⟩
  decide

/-- Claim C3 (amended): every sample produced at flush has the count of any
capability disabled at flush time zeroed; but capture does not keep
accumulating while a capability is disabled - the event handlers check the
toggle at capture time and increment only while it is enabled, so
suppression happens at capture time as well as on send. -/
theorem C3_amended : ∀ (cfg : AgentConfig) (s : AggState) (now : Nat),
    (log_activity { cfg with enable_keystroke_logging := false, enable_mouse_logging := true }
        s now).2 =
      some { timestamp_start := s.last_activity_log, timestamp_end := now,
             keystrokes := 0, mouse_clicks := s.mouse_click_count } ∧
    (log_activity { cfg with enable_keystroke_logging := true, enable_mouse_logging := false }
        s now).2 =
      some { timestamp_start := s.last_activity_log, timestamp_end := now,
             keystrokes := s.keystroke_count, mouse_clicks := 0 } ∧
    on_key_press { cfg with enable_keystroke_logging := false, enable_mouse_logging := true }
        s = s ∧
    on_mouse_click { cfg with enable_keystroke_logging := true, enable_mouse_logging := false }
        0 0 0 true s = s ∧
    on_key_press { cfg with enable_keystroke_logging := true, enable_mouse_logging := false }
        s = { s with keystroke_count := s.keystroke_count + 1 } ∧
    on_mouse_click { cfg with enable_keystroke_logging := false, enable_mouse_logging := true }
        0 0 0 true s = { s with mouse_click_count := s.mouse_click_count + 1 } := by
  intro cfg s now
  refine ⟨?_, ?_, ?_, ?_, ?_, ?_⟩ <;> simp [log_activity, on_key_press, on_mouse_click]

/-- The given config with both input-capture toggles enabled. -/
def bothOn (cfg : AgentConfig) : AgentConfig :=
  { cfg with enable_keystroke_logging := true, enable_mouse_logging := true }

/-- Running a serialized burst of increment callbacks with both toggles
enabled adds exactly the number of key / click events to the counters and
leaves the flush timestamp alone. -/
lemma runIncs_eq (cfg : AgentConfig) (hk : cfg.enable_keystroke_logging = true)
    (hm : cfg.enable_mouse_logging = true) :
    ∀ (es : List IncEvent) (k m l : Nat),
      runIncs cfg { keystroke_count := k, mouse_click_count := m, last_activity_log := l } es
        = { keystroke_count := k + countKey es, mouse_click_count := m + countMouse es,
            last_activity_log := l } := by
  intro es
  induction es with
  | nil => intro k m l; simp [runIncs, countKey, countMouse]
  | cons e es ih =>
    intro k m l
    cases e with
    | keyPress =>
      have h1 : runIncs cfg
          { keystroke_count := k, mouse_click_count := m, last_activity_log := l }
          (IncEvent.keyPress :: es) =
        runIncs cfg
          { keystroke_count := k + 1, mouse_click_count := m, last_activity_log := l } es := by
        simp [runIncs, applyInc, on_key_press, hk]
      rw [h1, ih]
      simp only [countKey, countMouse, AggState.mk.injEq, and_true, true_and]
      omega
    | mouseClick =>
      have h1 : runIncs cfg
          { keystroke_count := k, mouse_click_count := m, last_activity_log := l }
          (IncEvent.mouseClick :: es) =
        runIncs cfg
          { keystroke_count := k, mouse_click_count := m + 1, last_activity_log := l } es := by
        simp [runIncs, applyInc, on_mouse_click, hm]
      rw [h1, ih]
      simp only [countKey, countMouse, AggState.mk.injEq, and_true, true_and]
      omega

/-- Claim C2: with both toggles enabled, for any serialization of increment
callbacks around two flushes (every counter access runs under
`activity_lock`, so any concurrent interleaving is equivalent to such a
serialization), the first flush's sample counts exactly the increments
serialized strictly before its read-and-zero, the second flush counts
exactly the increments between the two, and the sample windows chain at the
flush timestamps - no increment is lost or double-counted. -/
theorem C2_atomic_flush : ∀ (cfg : AgentConfig) (t1 t2 : List IncEvent) (t0 n1 n2 : Nat),
    (log_activity (bothOn cfg)
        (runIncs (bothOn cfg)
          { keystroke_count := 0, mouse_click_count := 0, last_activity_log := t0 }
          t1) n1).2 =
      some { timestamp_start := t0, timestamp_end := n1,
             keystrokes := countKey t1, mouse_clicks := countMouse t1 } ∧
    (log_activity (bothOn cfg)
        (runIncs (bothOn cfg)
          (log_activity (bothOn cfg)
            (runIncs (bothOn cfg)
              { keystroke_count := 0, mouse_click_count := 0, last_activity_log := t0 }
              t1) n1).1
          t2) n2).2 =
      some { timestamp_start := n1, timestamp_end := n2,
             keystrokes := countKey t2, mouse_clicks := countMouse t2 } := by
  intro cfg t1 t2 t0 n1 n2
  have hk : (bothOn cfg).enable_keystroke_logging = true := rfl
  have hm : (bothOn cfg).enable_mouse_logging = true := rfl
  have e1 := runIncs_eq (bothOn cfg) hk hm t1 0 0 t0
  have e2 : (log_activity (bothOn cfg)
      { keystroke_count := 0 + countKey t1, mouse_click_count := 0 + countMouse t1,
        last_activity_log := t0 } n1).1 =
      { keystroke_count := 0, mouse_click_count := 0, last_activity_log := n1 } := by
    simp [log_activity, hk, hm]
  have e3 := runIncs_eq (bothOn cfg) hk hm t2 0 0 n1
  constructor
  · rw [e1]
    simp [log_activity, hk, hm]
  · rw [e1, e2, e3]
    simp [log_activity, hk, hm]

/-- Claim C7: a 200 pair answer carrying both fields makes `pair_with_server`
write the credential and the owning-account identifier into the config, mark
the first run complete, and invoke `save_config`; and `initial_setup` on an
already-paired config (completion flag set and a truthy token) is a no-op
returning success without attempting any pair request. -/
theorem C7_pairing : ∀ (cfg : AgentConfig) (t : String) (pk : Nat) (code : Option String)
    (pr : PairOutcome),
    ((pair_with_server cfg
        (PairOutcome.ok { agent_token := some t, user_pk := some pk })).ok = true ∧
     (pair_with_server cfg
        (PairOutcome.ok { agent_token := some t, user_pk := some pk })).cfg.agent_token
        = some t ∧
     (pair_with_server cfg
        (PairOutcome.ok { agent_token := some t, user_pk := some pk })).cfg.user_pk
        = some pk ∧
     (pair_with_server cfg
        (PairOutcome.ok { agent_token := some t, user_pk := some pk })).cfg.first_run_complete
        = true ∧
     (pair_with_server cfg
        (PairOutcome.ok { agent_token := some t, user_pk := some pk })).saved = true) ∧
    (cfg.first_run_complete = true → tokenTruthy cfg = true →
      initial_setup cfg code pr = { ok := true, cfg := cfg, attempted := false }) := by
  intro cfg t pk code pr
  constructor
  · exact ⟨rfl, rfl, rfl, rfl, rfl⟩
  · intro h1 h2
    simp [initial_setup, needs_setup, h1, h2]

/-- Claim C7 witness: re-running setup with the concrete paired config is a
no-op even when no code and only a failing server are available. -/
theorem C7_witness :
    initial_setup pairedCfg none PairOutcome.failure =
      { ok := true, cfg := pairedCfg, attempted := false } :=
  (C7_pairing pairedCfg "tok" 1 none PairOutcome.failure).2 rfl (by decide)

/-- The credential and the owning-account identifier are both null or both
set. -/
def token_pk_consistent (c : AgentConfig) : Prop :=
  (c.agent_token = none ∧ c.user_pk = none) ∨
  (c.agent_token ≠ none ∧ c.user_pk ≠ none)

/-- A well-formed 200 settings answer (no explicit `null` `user_pk`)
preserves consistency of credential and account identifier. -/
lemma fetch_ok_inv (c : AgentConfig) (s : SettingsResp) (hs : s.user_pk ≠ some none)
    (ih : token_pk_consistent c) :
    token_pk_consistent (fetch_settings_from_server c (FetchOutcome.ok s)).cfg := by
  cases hH : get_auth_headers c with
  | none => simpa [fetch_settings_from_server, hH] using ih
  | some hdr =>
    have hTok : c.agent_token ≠ none := by
      intro hN
      simp [get_auth_headers, hN] at hH
    have hPk : c.user_pk ≠ none := by
      rcases ih with ⟨h1, _⟩ | ⟨_, h2⟩
      · exact absurd h1 hTok
      · exact h2
    right
    constructor
    · simpa [fetch_settings_from_server, hH] using hTok
    · rcases hU : s.user_pk with _ | v
      · simpa [fetch_settings_from_server, hH, hU] using hPk
      · rcases v with _ | pk
        · exact absurd hU hs
        · simp [fetch_settings_from_server, hH, hU]

/-- Claim C8 counterexample: a 200 pair answer that carries `agent_token`
but lacks `user_pk` makes `pair_with_server` write the token, then abort on
the missing key - leaving the in-memory config with exactly one of the pair
set (the operation itself reports failure). -/
theorem C8_counterexample :
    (pair_with_server default_config
        (PairOutcome.ok { agent_token := some "tok", user_pk := none })).cfg.agent_token
      = some "tok" ∧
    (pair_with_server default_config
        (PairOutcome.ok { agent_token := some "tok", user_pk := none })).cfg.user_pk
      = none ∧
    (pair_with_server default_config
        (PairOutcome.ok { agent_token := some "tok", user_pk := none })).ok = false :=
  ⟨rfl, rfl, rfl⟩

/-- Claim C8 (amended): provided every 200 pair answer carries both
`agent_token` and `user_pk` and no 200 settings answer carries an explicit
`null` `user_pk` (the interface of spec section 6), every reachable agent
state has credential and owning-account identifier both null or both set;
a malformed 200 pair answer missing `user_pk`, however, leaves exactly the
credential set (see the counterexample). -/
theorem C8_amended : ∀ c : AgentConfig, Reachable c → token_pk_consistent c := by
  intro c h
  induction h with
  | init => left; exact ⟨rfl, rfl⟩
  | loadMissing => left; exact ⟨rfl, rfl⟩
  | loadSaved _ ih => rwa [load_serialize]
  | loadTruncated k _ _ => left; exact ⟨rfl, rfl⟩
  | pairOk t pk _ _ => right; constructor <;> simp [pair_with_server]
  | pairFail _ ih => exact ih
  | fetchOk s hs _ ih => exact fetch_ok_inv _ s hs ih
  | fetchHttpError code _ ih => rwa [fetch_err_cfg]
  | fetchNetError _ ih => rwa [fetch_net_cfg]

/-- Claim C8 witness: the invariant at the concrete state reached by a
well-formed pairing exchange on top of the defaults. -/
theorem C8_witness :
    token_pk_consistent
      (pair_with_server default_config
        (PairOutcome.ok { agent_token := some "tok", user_pk := some 1 })).cfg :=
  C8_amended _ (Reachable.pairOk "tok" 1 Reachable.init)

/-- Claim C9: if setup is needed (unpaired at startup) and the pairing flow
fails - no code supplied, or the pair request rejected - `run` exits with
code 1 (non-zero); whereas when setup succeeds and the single initial
settings fetch fails, `run` only records the warning and proceeds with the
locally stored configuration (no exit code, config unchanged by the
fetch). -/
theorem C9_startup : ∀ (cfg : AgentConfig) (c : String) (hc : Nat) (pr : PairOutcome)
    (fr : FetchOutcome),
    (needs_setup cfg = true →
      (run cfg none pr fr).exit_code = some 1 ∧
      (run cfg (some c) PairOutcome.failure fr).exit_code = some 1) ∧
    ((initial_setup cfg (some c) pr).ok = true →
      ((run cfg (some c) pr FetchOutcome.netError).exit_code = none ∧
       (run cfg (some c) pr FetchOutcome.netError).warned_settings = true ∧
       (run cfg (some c) pr FetchOutcome.netError).cfg
         = (initial_setup cfg (some c) pr).cfg) ∧
      ((run cfg (some c) pr (FetchOutcome.httpError hc)).exit_code = none ∧
       (run cfg (some c) pr (FetchOutcome.httpError hc)).warned_settings = true ∧
       (run cfg (some c) pr (FetchOutcome.httpError hc)).cfg
         = (initial_setup cfg (some c) pr).cfg)) := by
  intro cfg c hc pr fr
  constructor
  · intro h
    constructor
    · simp [run, initial_setup, h]
    · by_cases hce : c = "" <;> simp [run, initial_setup, pair_with_server, h, hce]
  · intro h
    have hcfgN : (fetch_settings_from_server (initial_setup cfg (some c) pr).cfg
        FetchOutcome.netError).cfg = (initial_setup cfg (some c) pr).cfg :=
      fetch_net_cfg _
    have hcfgH : (fetch_settings_from_server (initial_setup cfg (some c) pr).cfg
        (FetchOutcome.httpError hc)).cfg = (initial_setup cfg (some c) pr).cfg :=
      fetch_err_cfg _ hc
    have hokN : (fetch_settings_from_server (initial_setup cfg (some c) pr).cfg
        FetchOutcome.netError).ok = false := by
      cases hH : get_auth_headers (initial_setup cfg (some c) pr).cfg <;>
        simp [fetch_settings_from_server, hH]
    have hokH : (fetch_settings_from_server (initial_setup cfg (some c) pr).cfg
        (FetchOutcome.httpError hc)).ok = false := by
      cases hH : get_auth_headers (initial_setup cfg (some c) pr).cfg <;>
        simp [fetch_settings_from_server, hH]
    constructor
    · by_cases hM : (initial_setup cfg (some c) pr).cfg.monitoring_active = true <;>
        simp [run, h, hM, hcfgN, hokN]
    · by_cases hM : (initial_setup cfg (some c) pr).cfg.monitoring_active = true <;>
        simp [run, h, hM, hcfgH, hokH]

/-- Claim C9 witness: concrete instances - the defaults with a failing
pairing exchange exit with code 1; the paired config proceeds with a warning
both on a network error and on a 500 answer to the settings fetch. -/
theorem C9_witness :
    (run default_config none PairOutcome.failure FetchOutcome.netError).exit_code = some 1 ∧
    (run pairedCfg (some "x") PairOutcome.failure FetchOutcome.netError).warned_settings
      = true ∧
    (run pairedCfg (some "x") PairOutcome.failure FetchOutcome.netError).exit_code = none ∧
    (run pairedCfg (some "x") PairOutcome.failure (FetchOutcome.httpError 500)).warned_settings
      = true ∧
    (run pairedCfg (some "x") PairOutcome.failure (FetchOutcome.httpError 500)).exit_code
      = none := by
  refine ⟨?_, ?_, ?_, ?_, ?_⟩
  · exact ((C9_startup default_config "x" 500 PairOutcome.failure FetchOutcome.netError).1
      (by decide)).1
  · exact ((C9_startup pairedCfg "x" 500 PairOutcome.failure FetchOutcome.netError).2
      (by decide)).1.2.1
  · exact ((C9_startup pairedCfg "x" 500 PairOutcome.failure FetchOutcome.netError).2
      (by decide)).1.1
  · exact ((C9_startup pairedCfg "x" 500 PairOutcome.failure FetchOutcome.netError).2
      (by decide)).2.2.1
  · exact ((C9_startup pairedCfg "x" 500 PairOutcome.failure FetchOutcome.netError).2
      (by decide)).2.1

/-- A 200 settings answer disabling all three capabilities while the
profile's own monitoring flag says enabled. -/
def allOff : SettingsResp :=
  { user_pk := some (some 1)
    screenshot_interval_seconds := some 300
    activity_log_interval_seconds := some 60
    enable_screenshot_capture := some false
    enable_keystroke_logging := some false
    enable_mouse_logging := some false
    monitoring_enabled := some true }

/-- Claim C10 counterexample: the backend settings response does carry an
explicit monitoring flag - `monitoring_enabled` is among the keys the
`get_settings` view answers with - but the agent ignores it: even with
`monitoring_enabled = true` in the response, all three capability toggles
false make the agent compute `monitoring_active = false`. -/
theorem C10_counterexample :
    ("monitoring_enabled" ∈ settings_response_keys) ∧
    allOff.monitoring_enabled = some true ∧
    (fetch_settings_from_server pairedCfg (FetchOutcome.ok allOff)).cfg.monitoring_active
      = false := by
  refine ⟨?_, rfl, ?_⟩ <;> decide

/-- Claim C10 (amended): on every successful settings fetch the agent sets
`monitoring_active` to the disjunction of the three capability toggles of
the response (absent toggles counting as false), ignoring the explicit
`monitoring_enabled` flag the backend does include in the response; and when
all three toggles are false, `run` returns without starting any input
listener or scheduled job. -/
theorem C10_amended : ∀ (cfg : AgentConfig) (s : SettingsResp) (code : Option String)
    (pr : PairOutcome) (b : Option Bool),
    (tokenTruthy cfg = true →
      (fetch_settings_from_server cfg (FetchOutcome.ok s)).cfg.monitoring_active =
        (s.enable_screenshot_capture.getD false ||
         (s.enable_keystroke_logging.getD false || s.enable_mouse_logging.getD false))) ∧
    (fetch_settings_from_server cfg (FetchOutcome.ok { s with monitoring_enabled := b })) =
      fetch_settings_from_server cfg (FetchOutcome.ok s) ∧
    ((initial_setup cfg code pr).ok = true →
      tokenTruthy (initial_setup cfg code pr).cfg = true →
      s.enable_screenshot_capture = some false →
      s.enable_keystroke_logging = some false →
      s.enable_mouse_logging = some false →
      (run cfg code pr (FetchOutcome.ok s)).exit_code = none ∧
      (run cfg code pr (FetchOutcome.ok s)).listeners = [] ∧
      (run cfg code pr (FetchOutcome.ok s)).scheduled_jobs = []) := by
  intro cfg s code pr b
  refine ⟨?_, ?_, ?_⟩
  · intro hT
    have hS : (get_auth_headers cfg).isSome = true := by
      rw [get_auth_headers_isSome, hT]
    cases hH : get_auth_headers cfg with
    | none => rw [hH] at hS; simp at hS
    | some hdr => simp [fetch_settings_from_server, hH]
  · cases hH : get_auth_headers cfg <;> rcases s <;> simp [fetch_settings_from_server, hH]
  · intro h1 hT hs1 hs2 hs3
    have hS : (get_auth_headers (initial_setup cfg code pr).cfg).isSome = true := by
      rw [get_auth_headers_isSome, hT]
    cases hH : get_auth_headers (initial_setup cfg code pr).cfg with
    | none => rw [hH] at hS; simp at hS
    | some hdr =>
      refine ⟨?_, ?_, ?_⟩ <;>
        simp [run, h1, fetch_settings_from_server, hH, hs1, hs2, hs3]

/-- Claim C10 witness: with the concrete paired config and the all-toggles
false answer (whose `monitoring_enabled` is even true), `run` starts no
listener and schedules no job. -/
theorem C10_witness :
    (run pairedCfg none PairOutcome.failure (FetchOutcome.ok allOff)).exit_code = none ∧
    (run pairedCfg none PairOutcome.failure (FetchOutcome.ok allOff)).listeners = [] ∧
    (run pairedCfg none PairOutcome.failure (FetchOutcome.ok allOff)).scheduled_jobs = [] :=
  (C10_amended pairedCfg allOff none PairOutcome.failure none).2.2
    (by decide) (by decide) rfl rfl rfl

end DesktopAgent
